import Mathlib

/-!
Verification of the vscode-lldb debug-adapter sources.

The TypeScript sources are shallowly embedded: filesystem access
(`fs.existsSync`), path joining (`path.join`) and the platform path
delimiter are taken as parameters; stateful handlers become functions from
an explicit state to a state/response pair; promise rejection and thrown
exceptions become `Except`.
-/

namespace Js

/-- Splitting of a character list at every occurrence of the delimiter
character. `splitList d [] = [[]]`, matching `"".split(d)` returning
`[""]` in JavaScript. -/
def splitList (delim : Char) : List Char → List (List Char)
  | [] => [[]]
  | c :: rest =>
    match splitList delim rest with
    | [] => [[]]
    | cur :: parts =>
      if c = delim then [] :: cur :: parts
      else (c :: cur) :: parts

/-- Embedding of JavaScript `str.split(delim)` for a one-character
delimiter (the only use in the sources: `path.delimiter` and `'\n'`). -/
def split (delim : Char) (s : String) : List String :=
  (splitList delim s.data).map (fun l => String.mk l)

theorem splitList_ne_nil (delim : Char) (cs : List Char) : splitList delim cs ≠ [] := by
  cases cs with
  | nil => simp [splitList]
  | cons c rest =>
    simp only [splitList]
    cases h : splitList delim rest with
    | nil => simp
    | cons cur parts =>
      by_cases hc : c = delim <;> simp [hc]

theorem split_ne_nil (delim : Char) (s : String) : split delim s ≠ [] := by
  simp [split, splitList_ne_nil]

end Js

namespace ToolPath

/-- Embedding of the `for (var idx in parts)` loop of `getToolPath`
(`src/toolpath.ts`): walk the directory list in order, return the joined
path of the first directory where a file named `toolname` exists. -/
def findTool (existsFile : String → Bool) (join : String → String → String) :
    List String → String → Option String
  | [], _ => none
  | d :: rest, toolname =>
    let toolpath := join d toolname
    if existsFile toolpath then some toolpath
    else findTool existsFile join rest toolname

/-- Embedding of `getToolPath` (`src/toolpath.ts`, lines 11-23).
`pathEnv` is `process.env["PATH"]` (`none` when unset); the JavaScript
truthiness test `if (process.env["PATH"])` also fails on the empty string.
`delim` is `path.delimiter`, `join` is `path.join`, `existsFile` is
`fs.existsSync`. -/
def getToolPath (existsFile : String → Bool) (join : String → String → String)
    (delim : Char) (pathEnv : Option String) (toolname : String) : Option String :=
  match pathEnv with
  | some p =>
    if p ≠ "" then findTool existsFile join (Js.split delim p) toolname
    else none
  | none => none

theorem findTool_eq_find? (existsFile : String → Bool) (join : String → String → String)
    (parts : List String) (toolname : String) :
    findTool existsFile join parts toolname =
      (parts.find? fun d => existsFile (join d toolname)).map (fun d => join d toolname) := by
  induction parts with
  | nil => rfl
  | cons d rest ih =>
    simp only [findTool, List.find?]
    by_cases h : existsFile (join d toolname)
    · simp [h]
    · simp only [Bool.not_eq_true] at h
      simp [h, ih]

end ToolPath

namespace Main

/-- A DAP output event as constructed by `new OutputEvent(text, category)`
in `src/main.ts`. -/
structure OutputEvent where
  output : String
  category : String
  deriving DecidableEq

/-- Record of one `spawn(cmd, args)` call. -/
structure SpawnRec where
  cmd : String
  args : List String
  deriving DecidableEq

/-- The handlers `LLDBDebugger.connect` installs on the spawned process's
streams, and the process record itself (the value passed to `resolve`). -/
structure WiredProcess where
  proc : SpawnRec
  onStdoutData : String → OutputEvent
  onStderrData : String → OutputEvent

/-- Outcome of `LLDBDebugger.connect`: the promise's result (rejection
message or resolved process) together with the list of subprocesses
spawned during the call. -/
structure ConnectOutcome where
  outcome : Except String WiredProcess
  spawns : List SpawnRec

/-- Embedding of `LLDBDebugger.connect` (`src/main.ts`, lines 45-81).
If the tool locator returns `null` the promise is rejected with
`"Cannot find LLDB debugger."` and no `spawn` call is made; otherwise
`spawn("lldb", [program])` runs, its stdout and stderr `data` handlers
both emit `OutputEvent(str + "", 'stdout')`, and the promise resolves
with the child process. -/
def connect (existsFile : String → Bool) (join : String → String → String)
    (delim : Char) (pathEnv : Option String) (program : String) : ConnectOutcome :=
  match ToolPath.getToolPath existsFile join delim pathEnv "lldb" with
  | none => ⟨.error "Cannot find LLDB debugger.", []⟩
  | some _ =>
    let lldb : SpawnRec := ⟨"lldb", [program]⟩
    ⟨.ok ⟨lldb,
        fun str => ⟨str ++ "", "stdout"⟩,
        fun str => ⟨str ++ "", "stdout"⟩⟩,
      [lldb]⟩

/-- Outcome of `LLDBDebugger.evaluate` (`src/main.ts`, lines 116-121): the
lines written to the subprocess's stdin, and the boolean the promise
resolves with. -/
structure EvaluateOutcome where
  stdinWrites : List String
  resolved : Bool
  deriving DecidableEq

/-- Embedding of `LLDBDebugger.evaluate`: writes `expression + "\n"` to
the subprocess's stdin and resolves `true`. -/
def LLDBDebugger_evaluate (expression : String) : EvaluateOutcome :=
  ⟨[expression ++ "\n"], true⟩

/-- A breakpoint record as pushed by `setBreakPointsRequest`. -/
structure Breakpoint where
  verified : Bool
  line : Int
  deriving DecidableEq

/-- Mutable fields of `SwiftDebugSession` (`src/main.ts`, lines 129-133):
the per-path breakpoint map, the launched program, the current line. -/
structure SessionState where
  breakpoints : String → Option (List Breakpoint)
  program : Option String
  currentline : Int

/-- Session state after the constructor (`src/main.ts`, lines 135-141). -/
def initialSessionState : SessionState :=
  ⟨fun _ => none, none, 0⟩

/-- A DAP error response as produced by `sendErrorResponse(response, code,
message)`.

Modelled from the spec: `sendErrorResponse` lives in the DAP base class
(`./common/debugSession`), which is not among the sources; per the spec an
unsupported request is "answered synchronously with a structured error
response carrying a fixed numeric code and human-readable message", the
response being "flagged as unsuccessful". -/
structure ErrorResponse where
  success : Bool
  code : Nat
  message : String
  deriving DecidableEq

/-- Modelled from the spec: constructing the error response sent by the
missing base-class method `sendErrorResponse` — unsuccessful, carrying the
fixed numeric code and the human-readable message. -/
def sendErrorResponse (code : Nat) (message : String) : ErrorResponse :=
  ⟨false, code, message⟩

/-- Embedding of `SwiftDebugSession.setExceptionBreakPointsRequest`
(`src/main.ts`, lines 166-168): replies with error 101, touching no state. -/
def setExceptionBreakPointsRequest (st : SessionState) : SessionState × ErrorResponse :=
  (st, sendErrorResponse 101 "Setting a breakpoint on exceptions is not yet supported.")

/-- Embedding of `SwiftDebugSession.nextRequest` (`src/main.ts`, lines
241-243): replies with error 104, touching no state. -/
def nextRequest (st : SessionState) : SessionState × ErrorResponse :=
  (st, sendErrorResponse 104 "Next is not supported.")

/-- Embedding of `SwiftDebugSession.stepInRequest` (`src/main.ts`, lines
245-247): replies with error 102, touching no state. -/
def stepInRequest (st : SessionState) : SessionState × ErrorResponse :=
  (st, sendErrorResponse 102 "Step In is not yet supported")

/-- Embedding of `SwiftDebugSession.stepOutRequest` (`src/main.ts`, lines
249-252): replies with error 103, touching no state. -/
def stepOutRequest (st : SessionState) : SessionState × ErrorResponse :=
  (st, sendErrorResponse 103 "Step out is not yet supported")

/-- Body of a DAP evaluate response. -/
structure EvalResponseBody where
  result : String
  variablesReference : Nat
  deriving DecidableEq

/-- Outcome of `SwiftDebugSession.evaluateRequest`: the response body sent
back and every line written to the subprocess's stdin while handling the
request. -/
structure EvaluateRequestOutcome where
  body : EvalResponseBody
  stdinWrites : List String
  deriving DecidableEq

/-- Embedding of `SwiftDebugSession.evaluateRequest` (`src/main.ts`, lines
259-265): sets `response.body` to the template string
`evaluate(<expression>)` with `variablesReference` 0 and sends the
response; it never calls `LLDBDebugger.evaluate`, so nothing is written to
the subprocess. -/
def evaluateRequest (expression : String) : EvaluateRequestOutcome :=
  ⟨⟨"evaluate(" ++ expression ++ ")", 0⟩, []⟩

/-- Embedding of the breakpoint-building loop of
`SwiftDebugSession.setBreakPointsRequest` (`src/main.ts`, lines 178-191):
for each requested client line, convert it to a debugger line `l`, mark it
verified exactly when `l < lines.length`, and push a record with the line
converted back to client numbering. `cltoD` and `dtoCl` stand for the
base-class converters `convertClientLineToDebugger` and
`convertDebuggerLineToClient`. -/
def buildBreakpoints (cltoD dtoCl : Int → Int) (lines : List String)
    (clientLines : List Int) : List Breakpoint :=
  clientLines.map fun cl =>
    let l := cltoD cl
    let verified := decide (l < (lines.length : Int))
    ⟨verified, dtoCl l⟩

/-- Embedding of `SwiftDebugSession.setBreakPointsRequest` (`src/main.ts`,
lines 170-198): split the file contents on `'\n'`, build the breakpoint
records, store them in the session's map for the path, and answer with
them as the response body. `content` is the result of
`readFileSync(path).toString()` (the request's source file is readable). -/
def setBreakPointsRequest (cltoD dtoCl : Int → Int) (st : SessionState)
    (path : String) (content : String) (clientLines : List Int) :
    SessionState × List Breakpoint :=
  let lines := Js.split '\n' content
  let breakpoints := buildBreakpoints cltoD dtoCl lines clientLines
  (⟨fun q => if q = path then some breakpoints else st.breakpoints q,
    st.program, st.currentline⟩,
   breakpoints)

end Main

namespace Lldb

/-- State of the pending `attach` command of `Debugger.attach`
(`src/unnamed/part_002`, lines 51-70): the accumulation buffer `response`,
whether an idle timer is currently armed, and the promise's resolution
(`none` while unresolved; a promise resolves at most once, later calls to
`resolve` are ignored). -/
structure PendingState where
  response : String
  timerArmed : Bool
  resolvedOutput : Option String
  deriving DecidableEq

/-- Pending state right after `spawn`: empty buffer, `timer = null`,
promise unresolved. -/
def initPending : PendingState := ⟨"", false, none⟩

/-- Embedding of the stdout `data` handler (`src/unnamed/part_002`, lines
59-69): cancel any outstanding idle timer, append the chunk to the buffer,
arm a fresh idle timer. -/
def onChunk (s : PendingState) (str : String) : PendingState :=
  ⟨s.response ++ str, true, s.resolvedOutput⟩

/-- Embedding of the idle timer firing (`src/unnamed/part_002`, lines
66-68): if a timer is armed it fires, resolving the promise with the
buffer contents (a no-op if the promise is already resolved); with no
timer armed nothing happens. -/
def onIdleTimerFire (s : PendingState) : PendingState :=
  if s.timerArmed then
    ⟨s.response, false,
      match s.resolvedOutput with
      | none => some s.response
      | some r => some r⟩
  else s

/-- The scenario of claim C1: after the command is dispatched the chunks
arrive in order, each within the idle window of its predecessor, and then
a full idle window passes with no further chunk (so the last armed timer,
if any, fires). -/
def runQuietEnd (chunks : List String) : PendingState :=
  onIdleTimerFire (chunks.foldl onChunk initPending)

/-- Fields of the `Debugger` proxy (`src/unnamed/part_002`, lines 17-39):
the binary path and the `_attached` flag. -/
structure DebuggerState where
  binaryPath : String
  attached : Bool
  deriving DecidableEq

/-- The `Debugger` constructor (`src/unnamed/part_002`, lines 36-39):
stores the path and sets `_attached = false`. -/
def mkDebugger (path : String) : DebuggerState := ⟨path, false⟩

/-- Embedding of `precondition` (`src/lib/src/utils/assertion.ts`): throws
(`Except.error`) with the message when the condition is false. -/
def precondition (condition : Bool) (message : String) : Except String Unit :=
  if condition then .ok () else .error message

/-- Embedding of `fs.realpathSync`: throws ENOENT when the path does not
exist, otherwise returns the resolved path. `fsExists` is `fs.existsSync`,
`realpath` the resolution function of the ambient filesystem. -/
def realpathSync (fsExists : String → Bool) (realpath : String → String)
    (p : String) : Except String String :=
  if fsExists p then .ok (realpath p) else
    .error ("ENOENT: no such file or directory, realpath " ++ p)

/-- Outcome of `Debugger.attach` (`src/unnamed/part_002`, lines 44-71):
the thrown error or the returned promise's pending state, the `spawn`
calls made, and the `Debugger` fields afterwards (the method assigns no
field of `this`, so they are returned unchanged field by field). -/
structure AttachOutcome where
  result : Except String Main.SpawnRec
  spawns : List Main.SpawnRec
  post : DebuggerState

/-- Embedding of `Debugger.attach`: check the not-already-attached
precondition, resolve the binary path (`fs.realpathSync` throws on a
nonexistent path), check the resolved path exists, and only then spawn
`/usr/bin/lldb` with the binary path (`Debugger.lldbPath` is the constant
`"/usr/bin/lldb"`). -/
def attach (fsExists : String → Bool) (realpath : String → String)
    (st : DebuggerState) : AttachOutcome :=
  match precondition (!st.attached) "debugger.lldb.alreadyattached" with
  | .error m => ⟨.error m, [], ⟨st.binaryPath, st.attached⟩⟩
  | .ok _ =>
    match realpathSync fsExists realpath st.binaryPath with
    | .error m => ⟨.error m, [], ⟨st.binaryPath, st.attached⟩⟩
    | .ok fullPath =>
      match precondition (fsExists fullPath) "debugger.lldb.binarydoesnotexist" with
      | .error m => ⟨.error m, [], ⟨st.binaryPath, st.attached⟩⟩
      | .ok _ =>
        let lldb : Main.SpawnRec := ⟨"/usr/bin/lldb", [st.binaryPath]⟩
        ⟨.ok lldb, [lldb], ⟨st.binaryPath, st.attached⟩⟩

/-- The operations a client can run on a `Debugger` instance after
construction: `attach` (under an arbitrary filesystem); the only other
members are read-only getters. -/
inductive DebuggerOp where
  | attachOp (fsExists : String → Bool) (realpath : String → String)

/-- State transition of one operation. -/
def applyOp (st : DebuggerState) : DebuggerOp → DebuggerState
  | .attachOp fsExists realpath => (attach fsExists realpath st).post

end Lldb


/-- C3: if the tool name exists as a file in at least one directory of the
search-path list, `getToolPath` returns the joined path from the first such
directory in list order (the first match of `List.find?` over the split
directory list). -/
theorem C3_locator_returns_first_match (existsFile : String → Bool)
    (join : String → String → String) (delim : Char) (p toolname : String)
    (hp : p ≠ "")
    (hex : ∃ d ∈ Js.split delim p, existsFile (join d toolname) = true) :
    ∃ d, (Js.split delim p).find? (fun d => existsFile (join d toolname)) = some d ∧
      ToolPath.getToolPath existsFile join delim (some p) toolname = some (join d toolname) := by
  obtain ⟨d₀, hd₀, hex₀⟩ := hex
  have hsome : ((Js.split delim p).find? fun d => existsFile (join d toolname)).isSome := by
    rw [List.find?_isSome]
    exact ⟨d₀, hd₀, hex₀⟩
  obtain ⟨d, hd⟩ := Option.isSome_iff_exists.mp hsome
  refine ⟨d, hd, ?_⟩
  simp only [ToolPath.getToolPath, hp, if_true, ne_eq, not_false_iff]
  rw [ToolPath.findTool_eq_find?, hd]
  rfl

/-- Witness for C3 at a concrete search path with two directories, the tool
present in both: the first directory wins. -/
theorem C3_witness :
    ∃ d, (Js.split ':' "/usr/bin:/usr/local/bin").find?
        (fun d => (fun _ => true : String → Bool) ((fun a b => a ++ "/" ++ b) d "lldb")) = some d ∧
      ToolPath.getToolPath (fun _ => true) (fun a b => a ++ "/" ++ b) ':'
        (some "/usr/bin:/usr/local/bin") "lldb" = some ((fun a b => a ++ "/" ++ b) d "lldb") :=
  C3_locator_returns_first_match (fun _ => true) (fun a b => a ++ "/" ++ b) ':'
    "/usr/bin:/usr/local/bin" "lldb" (by decide) ⟨"/usr/bin", by decide, rfl⟩

/-- C4: if the tool name is present in no directory of the search-path list
(including the case where the variable is unset), `getToolPath` returns
`none`; the embedding is a total function, so no exception is possible. -/
theorem C4_locator_absent_returns_none (existsFile : String → Bool)
    (join : String → String → String) (delim : Char) (pathEnv : Option String)
    (toolname : String)
    (habs : ∀ p, pathEnv = some p →
      ∀ d ∈ Js.split delim p, existsFile (join d toolname) = false) :
    ToolPath.getToolPath existsFile join delim pathEnv toolname = none := by
  match pathEnv with
  | none => rfl
  | some p =>
    simp only [ToolPath.getToolPath]
    by_cases hp : p = ""
    · simp [hp]
    · simp only [ne_eq, hp, not_false_iff, if_true]
      rw [ToolPath.findTool_eq_find?]
      have : (Js.split delim p).find? (fun d => existsFile (join d toolname)) = none := by
        rw [List.find?_eq_none]
        intro d hd
        simp [habs p rfl d hd]
      rw [this]
      rfl

/-- Witness for C4: tool absent from every directory, nonempty search path. -/
theorem C4_witness :
    ToolPath.getToolPath (fun _ => false) (fun a b => a ++ "/" ++ b) ':'
      (some "/usr/bin") "lldb" = none :=
  C4_locator_absent_returns_none (fun _ => false) (fun a b => a ++ "/" ++ b) ':'
    (some "/usr/bin") "lldb" (by intro p hp d _; rfl)

theorem foldl_onChunk_resolved (chunks : List String) (s : Lldb.PendingState) :
    (chunks.foldl Lldb.onChunk s).resolvedOutput = s.resolvedOutput := by
  induction chunks generalizing s with
  | nil => rfl
  | cons c rest ih => exact ih (Lldb.onChunk s c)

theorem foldl_onChunk_response (chunks : List String) (s : Lldb.PendingState) :
    (chunks.foldl Lldb.onChunk s).response =
      chunks.foldl (fun r c => r ++ c) s.response := by
  induction chunks generalizing s with
  | nil => rfl
  | cons c rest ih => exact ih (Lldb.onChunk s c)

theorem foldl_onChunk_timer (chunks : List String) (s : Lldb.PendingState)
    (h : chunks ≠ []) : (chunks.foldl Lldb.onChunk s).timerArmed = true := by
  induction chunks generalizing s with
  | nil => exact absurd rfl h
  | cons c rest ih =>
    cases rest with
    | nil => rfl
    | cons d tail => exact ih (Lldb.onChunk s c) (by simp)

/-- C1 counterexample: with an empty chunk sequence no idle timer is ever
armed, so after the quiet period the pending command is still unresolved —
it does not resolve (with the empty concatenation) as the claim requires. -/
theorem C1_counterexample :
    (Lldb.runQuietEnd []).resolvedOutput = none ∧ String.join [] = "" := ⟨rfl, rfl⟩

/-- C1 (amended to nonempty chunk sequences): if at least one output chunk
arrives after the command is dispatched, each within the idle window of its
predecessor, and then a full idle window passes with no further chunk, the
pending command is unresolved until the final timer fires and then resolves
exactly once, with output the concatenation of all chunks in arrival
order. -/
theorem C1_idle_framing_concatenates (chunks : List String) (h : chunks ≠ []) :
    (chunks.foldl Lldb.onChunk Lldb.initPending).resolvedOutput = none ∧
    (Lldb.runQuietEnd chunks).resolvedOutput = some (String.join chunks) := by
  refine ⟨foldl_onChunk_resolved chunks Lldb.initPending, ?_⟩
  unfold Lldb.runQuietEnd Lldb.onIdleTimerFire
  rw [foldl_onChunk_timer chunks Lldb.initPending h]
  simp only [if_true]
  rw [foldl_onChunk_resolved chunks Lldb.initPending]
  rw [foldl_onChunk_response chunks Lldb.initPending]
  rfl

/-- Witness for C1 at the two-chunk sequence `["(lldb) ", "target\n"]`. -/
theorem C1_witness :
    (["(lldb) ", "target\n"] ≠ ([] : List String)) ∧
    ((["(lldb) ", "target\n"].foldl Lldb.onChunk Lldb.initPending).resolvedOutput = none ∧
      (Lldb.runQuietEnd ["(lldb) ", "target\n"]).resolvedOutput =
        some (String.join ["(lldb) ", "target\n"])) :=
  ⟨by decide, C1_idle_framing_concatenates ["(lldb) ", "target\n"] (by decide)⟩

/-- C2: in the response of `setBreakPointsRequest` on a readable source
file, the breakpoint built for a requested client line is marked verified
if and only if the debugger-converted line index is strictly less than the
number of lines of the file (its contents split at newlines); the
equivalence holds for every choice of converters, state, path, contents
and requested lines, so no other condition affects verification. -/
theorem C2_verified_iff_line_in_range (cltoD dtoCl : Int → Int)
    (st : Main.SessionState) (path content : String) (clientLines : List Int)
    (i : Nat) (cl : Int) (bp : Main.Breakpoint)
    (hcl : clientLines[i]? = some cl)
    (hbp : (Main.setBreakPointsRequest cltoD dtoCl st path content clientLines).2[i]?
      = some bp) :
    bp.verified = true ↔ cltoD cl < ((Js.split '\n' content).length : Int) := by
  simp only [Main.setBreakPointsRequest, Main.buildBreakpoints, List.getElem?_map, hcl,
    Option.map_some', Option.some.injEq] at hbp
  subst hbp
  simp [decide_eq_true_iff]

/-- Witness for C2 on the three-line file `"a\nb\nc"`, identity client-line
conversion, requested lines 2 (in range, verified) and 7 (out of range):
instantiated at index 0. -/
theorem C2_witness :
    ([(2 : Int), 7][0]? = some 2) ∧
    ((Main.setBreakPointsRequest (fun x => x) (fun x => x) Main.initialSessionState
        "/tmp/a.swift" "a\nb\nc" [2, 7]).2[0]? = some ⟨true, 2⟩) ∧
    ((true : Bool) = true ↔ (fun x => x) (2 : Int) < ((Js.split '\n' "a\nb\nc").length : Int)) :=
  ⟨rfl, rfl,
    C2_verified_iff_line_in_range (fun x => x) (fun x => x) Main.initialSessionState
      "/tmp/a.swift" "a\nb\nc" [2, 7] 0 2 ⟨true, 2⟩ rfl rfl⟩

/-- C5: when the tool locator cannot resolve the `lldb` tool, `connect`
rejects with the message `"Cannot find LLDB debugger."` and spawns no
subprocess, whatever the program path. -/
theorem C5_connect_rejects_without_tool (existsFile : String → Bool)
    (join : String → String → String) (delim : Char) (pathEnv : Option String)
    (program : String)
    (h : ToolPath.getToolPath existsFile join delim pathEnv "lldb" = none) :
    (Main.connect existsFile join delim pathEnv program).outcome =
        .error "Cannot find LLDB debugger." ∧
    (Main.connect existsFile join delim pathEnv program).spawns = [] := by
  unfold Main.connect
  rw [h]
  exact ⟨rfl, rfl⟩

/-- Witness for C5 with the search-path variable unset. -/
theorem C5_witness :
    ToolPath.getToolPath (fun _ => false) (fun a b => a ++ "/" ++ b) ':' none "lldb" = none ∧
    ((Main.connect (fun _ => false) (fun a b => a ++ "/" ++ b) ':' none "a.out").outcome =
        .error "Cannot find LLDB debugger." ∧
      (Main.connect (fun _ => false) (fun a b => a ++ "/" ++ b) ':' none "a.out").spawns = []) :=
  ⟨rfl, C5_connect_rejects_without_tool (fun _ => false) (fun a b => a ++ "/" ++ b) ':'
    none "a.out" rfl⟩

/-- C6: `attach` on a freshly constructed `Debugger` whose binary path does
not exist throws (`fs.realpathSync` raises ENOENT) before any subprocess is
spawned. -/
theorem C6_attach_nonexistent_binary_throws (fsExists : String → Bool)
    (realpath : String → String) (path : String)
    (h : fsExists path = false) :
    (Lldb.attach fsExists realpath (Lldb.mkDebugger path)).result =
        .error ("ENOENT: no such file or directory, realpath " ++ path) ∧
    (Lldb.attach fsExists realpath (Lldb.mkDebugger path)).spawns = [] := by
  unfold Lldb.attach Lldb.mkDebugger Lldb.precondition Lldb.realpathSync
  simp [h]

/-- Witness for C6: empty filesystem, binary path `/tmp/missing`. -/
theorem C6_witness :
    ((fun _ => false : String → Bool) "/tmp/missing" = false) ∧
    ((Lldb.attach (fun _ => false) (fun p => p) (Lldb.mkDebugger "/tmp/missing")).result =
        .error ("ENOENT: no such file or directory, realpath " ++ "/tmp/missing") ∧
      (Lldb.attach (fun _ => false) (fun p => p) (Lldb.mkDebugger "/tmp/missing")).spawns = []) :=
  ⟨rfl, C6_attach_nonexistent_binary_throws (fun _ => false) (fun p => p) "/tmp/missing" rfl⟩

/-- C7 counterexample: at the concrete expression `"1 + 1"`,
`evaluateRequest` writes nothing at all to the subprocess's input stream
and its response body is exactly the synthesized placeholder
`evaluate(1 + 1)`, not text collected from the subprocess. -/
theorem C7_counterexample :
    (Main.evaluateRequest "1 + 1").stdinWrites = [] ∧
    (Main.evaluateRequest "1 + 1").body.result = "evaluate(1 + 1)" := by
  exact ⟨rfl, rfl⟩

/-- C7 (amended): for every evaluate-expression request the handler writes
nothing to the subprocess's input stream and answers with the synthesized
body `evaluate(<expression>)` (variables reference 0); the
`LLDBDebugger.evaluate` method — which would write the expression as a
command line to stdin — exists but is not invoked by the handler. -/
theorem C7_evaluate_is_synthesized (expression : String) :
    (Main.evaluateRequest expression).stdinWrites = [] ∧
    (Main.evaluateRequest expression).body.result =
      "evaluate(" ++ expression ++ ")" ∧
    (Main.evaluateRequest expression).body.variablesReference = 0 ∧
    (Main.LLDBDebugger_evaluate expression).stdinWrites = [expression ++ "\n"] :=
  ⟨rfl, rfl, rfl, rfl⟩

/-- C8: each of the four unimplemented request kinds
(set-exception-breakpoints, next, step-in, step-out) answers with a
response flagged unsuccessful, carrying its fixed numeric code and a
non-empty message, and returns the session state unchanged. -/
theorem C8_unsupported_requests_error_no_mutation (st : Main.SessionState) :
    ((Main.setExceptionBreakPointsRequest st).1 = st ∧
      (Main.setExceptionBreakPointsRequest st).2.success = false ∧
      (Main.setExceptionBreakPointsRequest st).2.code = 101 ∧
      (Main.setExceptionBreakPointsRequest st).2.message ≠ "") ∧
    ((Main.nextRequest st).1 = st ∧
      (Main.nextRequest st).2.success = false ∧
      (Main.nextRequest st).2.code = 104 ∧
      (Main.nextRequest st).2.message ≠ "") ∧
    ((Main.stepInRequest st).1 = st ∧
      (Main.stepInRequest st).2.success = false ∧
      (Main.stepInRequest st).2.code = 102 ∧
      (Main.stepInRequest st).2.message ≠ "") ∧
    ((Main.stepOutRequest st).1 = st ∧
      (Main.stepOutRequest st).2.success = false ∧
      (Main.stepOutRequest st).2.code = 103 ∧
      (Main.stepOutRequest st).2.message ≠ "") :=
  ⟨⟨rfl, rfl, rfl, by
      show ("Setting a breakpoint on exceptions is not yet supported." : String) ≠ ""
      decide⟩,
    ⟨rfl, rfl, rfl, by
      show ("Next is not supported." : String) ≠ ""
      decide⟩,
    ⟨rfl, rfl, rfl, by
      show ("Step In is not yet supported" : String) ≠ ""
      decide⟩,
    ⟨rfl, rfl, rfl, by
      show ("Step out is not yet supported" : String) ≠ ""
      decide⟩⟩

theorem attach_post_eq (fsExists : String → Bool) (realpath : String → String)
    (st : Lldb.DebuggerState) : (Lldb.attach fsExists realpath st).post = st := by
  unfold Lldb.attach
  repeat' split
  all_goals rfl

theorem applyOp_fixed (st : Lldb.DebuggerState) (op : Lldb.DebuggerOp) :
    Lldb.applyOp st op = st := by
  cases op with
  | attachOp fsExists realpath => exact attach_post_eq fsExists realpath st

theorem foldl_applyOp_fixed (ops : List Lldb.DebuggerOp) (st : Lldb.DebuggerState) :
    ops.foldl Lldb.applyOp st = st := by
  induction ops generalizing st with
  | nil => rfl
  | cons op rest ih => rw [List.foldl_cons, applyOp_fixed, ih]

theorem enoent_message_ne_alreadyattached (p : String) :
    ("ENOENT: no such file or directory, realpath " ++ p) ≠
      "debugger.lldb.alreadyattached" := by
  intro h
  have hlen := congrArg String.length h
  rw [String.length_append] at hlen
  have h1 : ("ENOENT: no such file or directory, realpath ").length = 44 := by decide
  have h2 : ("debugger.lldb.alreadyattached").length = 29 := by decide
  omega

/-- C9: starting from a freshly constructed `Debugger`, `isAttached` is
false and stays false after any sequence of operations (no operation ever
assigns the flag), so from any reachable state `attach` can never throw the
`debugger.lldb.alreadyattached` precondition failure. -/
theorem C9_attached_flag_stays_false (path : String) (ops : List Lldb.DebuggerOp) :
    (ops.foldl Lldb.applyOp (Lldb.mkDebugger path)).attached = false ∧
    ∀ (fsExists : String → Bool) (realpath : String → String),
      (Lldb.attach fsExists realpath (ops.foldl Lldb.applyOp (Lldb.mkDebugger path))).result ≠
        .error "debugger.lldb.alreadyattached" := by
  rw [foldl_applyOp_fixed]
  refine ⟨rfl, ?_⟩
  intro fsExists realpath
  unfold Lldb.attach Lldb.precondition Lldb.realpathSync Lldb.mkDebugger
  by_cases h1 : fsExists path
  · by_cases h2 : fsExists (realpath path)
    · simp [h1, h2]
    · simp [h1, h2]
  · simp [h1, enoent_message_ne_alreadyattached path]

/-- C10: after a successful `connect`, the handler installed on the
subprocess's stderr stream emits, for every data chunk, an `OutputEvent`
with category `'stdout'` and the chunk as text — identical to the event
the stdout handler emits, so stderr output is never surfaced under a
distinct `'stderr'` category. -/
theorem C10_stderr_uses_stdout_category (existsFile : String → Bool)
    (join : String → String → String) (delim : Char) (pathEnv : Option String)
    (program : String) (w : Main.WiredProcess)
    (h : (Main.connect existsFile join delim pathEnv program).outcome = .ok w)
    (s : String) :
    w.onStderrData s = ⟨s ++ "", "stdout"⟩ ∧
    (w.onStderrData s).category = "stdout" ∧
    w.onStderrData s = w.onStdoutData s := by
  unfold Main.connect at h
  cases htool : ToolPath.getToolPath existsFile join delim pathEnv "lldb" with
  | none => rw [htool] at h; exact absurd h (by simp)
  | some tp =>
    rw [htool] at h
    simp only [Except.ok.injEq] at h
    subst h
    exact ⟨rfl, rfl, rfl⟩

/-- Witness for C10: a filesystem where every path exists, search path
`/usr/bin`, chunk `"error text"`. -/
theorem C10_witness :
    ((Main.connect (fun _ => true) (fun a b => a ++ "/" ++ b) ':'
        (some "/usr/bin") "a.out").outcome =
      .ok ⟨⟨"lldb", ["a.out"]⟩,
        fun str => ⟨str ++ "", "stdout"⟩,
        fun str => ⟨str ++ "", "stdout"⟩⟩) ∧
    ((Main.WiredProcess.onStderrData ⟨⟨"lldb", ["a.out"]⟩,
        fun str => ⟨str ++ "", "stdout"⟩,
        fun str => ⟨str ++ "", "stdout"⟩⟩ "error text" = ⟨"error text" ++ "", "stdout"⟩) ∧
      (Main.WiredProcess.onStderrData ⟨⟨"lldb", ["a.out"]⟩,
        fun str => ⟨str ++ "", "stdout"⟩,
        fun str => ⟨str ++ "", "stdout"⟩⟩ "error text").category = "stdout" ∧
      Main.WiredProcess.onStderrData ⟨⟨"lldb", ["a.out"]⟩,
        fun str => ⟨str ++ "", "stdout"⟩,
        fun str => ⟨str ++ "", "stdout"⟩⟩ "error text" =
        Main.WiredProcess.onStdoutData ⟨⟨"lldb", ["a.out"]⟩,
          fun str => ⟨str ++ "", "stdout"⟩,
          fun str => ⟨str ++ "", "stdout"⟩⟩ "error text") :=
  ⟨rfl, C10_stderr_uses_stdout_category (fun _ => true) (fun a b => a ++ "/" ++ b) ':'
    (some "/usr/bin") "a.out"
    ⟨⟨"lldb", ["a.out"]⟩, fun str => ⟨str ++ "", "stdout"⟩, fun str => ⟨str ++ "", "stdout"⟩⟩
    rfl "error text"⟩
